import Mathlib

/-!
# Verification of the wellascan reorder-list server

Shallow embedding of the wellascan-server domain model: the reorder-list
quantity state machine (`adjustQuantity` from `src/models/ReorderList.ts`),
the list/product orchestration routes, the access-control middleware
(`src/middleware/requireAuth.ts`), the token helpers (`src/utils/authUtils.ts`)
and the user credential model with its pre-save password hook.

The Mongo document store is modelled as explicit lists of documents; a
document `save` is an insert-or-replace keyed on the document id, mirroring
Mongo upsert-by-`_id` semantics.  JavaScript numbers are modelled as `ℚ`
(`Number.isInteger` becomes a denominator check); object ids are `Nat`
(products, lists) or `String` (users, matching the token payload).
-/

/-- JS `Number.isInteger` on the rational model of a JS number. -/
def jsIsInteger (q : ℚ) : Bool := q.den == 1

/-- A `ReorderProduct` document (`reorderProductSchema`):
sku, name, reorderQuantity, and the owning list reference `listId`. -/
structure ReorderProduct where
  id : Nat
  sku : String
  name : String
  reorderQuantity : ℚ
  listId : Nat
deriving DecidableEq

/-- A `ReorderList` document (`reorderListSchema`): owning user, unique
list name, and the membership collection `productsToReorder` of product ids. -/
structure ReorderListDoc where
  id : Nat
  userId : Nat
  listName : String
  productsToReorder : List Nat
deriving DecidableEq

/-- The document store: the `ReorderProduct` and `ReorderList` collections. -/
structure Store where
  products : List ReorderProduct
  lists : List ReorderListDoc
deriving DecidableEq

/-- Insert-or-replace a document into a collection, keyed by `key`
(models Mongo `save`: replace the document with the same `_id`, or insert). -/
def upsertBy {α : Type} (key : α → Nat) (l : List α) (x : α) : List α :=
  if l.any (fun y => key y == key x) then
    l.map (fun y => if key y == key x then x else y)
  else
    l ++ [x]

/-- `product.save()`. -/
def saveProduct (s : Store) (p : ReorderProduct) : Store :=
  { s with products := upsertBy (fun q => q.id) s.products p }

/-- `reorderList.save()`. -/
def saveList (s : Store) (l : ReorderListDoc) : Store :=
  { s with lists := upsertBy (fun m => m.id) s.lists l }

/-- `ReorderProduct.findById`. -/
def findProduct (s : Store) (pid : Nat) : Option ReorderProduct :=
  s.products.find? (fun p => p.id == pid)

/-- `ReorderList.findById`. -/
def findList (s : Store) (lid : Nat) : Option ReorderListDoc :=
  s.lists.find? (fun l => l.id == lid)

/-- The `deleteProduct` helper inside `adjustQuantity`:
`ReorderList.updateMany({productsToReorder: this._id}, {$pull: ...})`
followed by `this.deleteOne()` — the product id is pulled from every list's
membership collection and the product document is removed. -/
def deleteProductCascade (s : Store) (pid : Nat) : Store :=
  { products := s.products.filter (fun q => !(q.id == pid)),
    lists := s.lists.map
      (fun l => { l with productsToReorder := l.productsToReorder.filter (fun m => !(m == pid)) }) }

/-- `QuantityAdjustmentTypes = z.enum(['increase', 'decrease', 'set'])`. -/
inductive QuantityAdjustmentType where
  | increase
  | decrease
  | set
deriving DecidableEq

/-- The `'deleted' | 'updated'` result of `adjustQuantity`. -/
inductive AdjustResult where
  | updated
  | deleted
deriving DecidableEq

/-- `reorderProductSchema.methods.adjustQuantity(type, quantity?)`.
A thrown `Error` is an `Except.error` carrying the error message; success
returns the updated store plus the `'deleted' | 'updated'` discriminator.
`this` is the loaded product document. -/
def adjustQuantity (this : ReorderProduct) (s : Store) (ty : QuantityAdjustmentType)
    (quantity : Option ℚ) : Except String (Store × AdjustResult) :=
  match ty with
  | .increase =>
    Except.ok (saveProduct s { this with reorderQuantity := this.reorderQuantity + 1 }, .updated)
  | .decrease =>
    let newQuantity := max 0 (this.reorderQuantity - 1)
    if newQuantity = 0 then
      Except.ok (deleteProductCascade s this.id, .deleted)
    else
      Except.ok (saveProduct s { this with reorderQuantity := newQuantity }, .updated)
  | .set =>
    match quantity with
    | some q =>
      if jsIsInteger q = true ∧ 0 ≤ q then
        if q = 0 then
          Except.ok (deleteProductCascade s this.id, .deleted)
        else
          Except.ok (saveProduct s { this with reorderQuantity := q }, .updated)
      else
        Except.error "Invalid quantity for set operation"
    | none => Except.error "Invalid quantity for set operation"

/-- `reorderListSchema.methods.addProduct(sku, name, quantity, listId)`:
creates and saves a new `ReorderProduct`, pushes its id onto
`this.productsToReorder` and saves the list.  `newId` is the fresh document
id generated by the store; the mutated in-memory list document is returned
alongside the store because the caller saves it once more. -/
def addProduct (this : ReorderListDoc) (s : Store) (sku name : String) (quantity : ℚ)
    (listId : Nat) (newId : Nat) : Store × ReorderListDoc :=
  let productToReorder : ReorderProduct :=
    { id := newId, sku := sku, name := name, reorderQuantity := quantity, listId := listId }
  let s1 := saveProduct s productToReorder
  let this1 := { this with productsToReorder := this.productsToReorder ++ [newId] }
  (saveList s1 this1, this1)

/-- `AddProductSchema = z.object({sku: z.string(), name: z.string(),
quantity: z.number(), listId: z.string()})` — note that `quantity` is a plain
`z.number()` with no integrality or positivity refinement. -/
structure AddProductBody where
  sku : Option String
  name : Option String
  quantity : Option ℚ
  listId : Option String
deriving DecidableEq

/-- `AddProductSchema.safeParse(...).success`. -/
def addProductSchemaParses (b : AddProductBody) : Bool :=
  b.sku.isSome && b.name.isSome && b.quantity.isSome && b.listId.isSome

/-- The add-or-bump route `reorderRoutes.post('/product/:listId')`: looks the
list up, populates its members, finds a member with the exact SKU; if found
applies one `increase` adjustment, otherwise creates the product via
`addProduct`; in both branches the list document is saved once more. -/
def addOrBumpProduct (s : Store) (listId : Nat) (sku name : String) (quantity : ℚ)
    (newId : Nat) : Except String Store :=
  match findList s listId with
  | none => Except.error "No list found by that ID."
  | some reorderList =>
    let members := reorderList.productsToReorder.filterMap (fun mid => findProduct s mid)
    match members.find? (fun q => q.sku == sku) with
    | some reorderProduct =>
      match adjustQuantity reorderProduct s .increase none with
      | Except.ok (s1, _) => Except.ok (saveList s1 reorderList)
      | Except.error e => Except.error e
    | none =>
      let r := addProduct reorderList s sku name quantity reorderList.id newId
      Except.ok (saveList r.1 r.2)

/-- The delete-product route `reorderRoutes.delete('/product/:productId')`:
`ReorderProduct.findById` followed by `reorderProduct.deleteOne()` — the
document alone is removed, no list membership is touched. -/
def deleteProductRoute (s : Store) (productId : Nat) : Except String Store :=
  match findProduct s productId with
  | none => Except.error "Product not found."
  | some p =>
    Except.ok { s with products := s.products.filter (fun q => !(q.id == p.id)) }

/-- `QuantityAdjustmentSchema` request body: raw `type` and optional number. -/
structure AdjustmentBody where
  type : Option String
  quantity : Option ℚ
deriving DecidableEq

/-- Decode the `z.enum(['increase','decrease','set'])` discriminator. -/
def parseAdjustmentType : String → Option QuantityAdjustmentType
  | "increase" => some .increase
  | "decrease" => some .decrease
  | "set" => some .set
  | _ => none

/-- `QuantityAdjustmentSchema.safeParse`: `type` must be one of the three
kinds, `quantity` is optional but must be a non-negative integer when
present, and the `refine` step requires `quantity` when `type` is `set`. -/
def quantityAdjustmentSchemaParse (b : AdjustmentBody) : Option (QuantityAdjustmentType × Option ℚ) :=
  match b.type with
  | none => none
  | some t =>
    match parseAdjustmentType t with
    | none => none
    | some ty =>
      match b.quantity with
      | none => if ty = .set then none else some (ty, none)
      | some q => if jsIsInteger q = true ∧ 0 ≤ q then some (ty, some q) else none

/-- The adjust-product route `reorderRoutes.patch('/product/:productId')`:
schema validation, then product lookup, then `adjustQuantity`; the second
component of the result is the store after the request (unchanged on any
failure path, since the thrown adjustment error is caught before any save). -/
inductive AdjustRouteOutcome where
  | badRequest (message : String)
  | notFound (message : String)
  | caught (message : String)
  | success (action : AdjustResult)
deriving DecidableEq

/-- `reorderRoutes.patch('/product/:productId')` as a store transformer. -/
def adjustProductRoute (s : Store) (productId : Nat) (body : AdjustmentBody) :
    AdjustRouteOutcome × Store :=
  match quantityAdjustmentSchemaParse body with
  | none => (.badRequest "Invalid request data.", s)
  | some (ty, q) =>
    match findProduct s productId with
    | none => (.notFound "Product not found.", s)
    | some p =>
      match adjustQuantity p s ty q with
      | Except.ok (s1, r) => (.success r, s1)
      | Except.error e => (.caught e, s)

/-- Iterate the increase adjustment: each round reloads the product by id
(as the adjust route does) and applies `adjustQuantity 'increase'`. -/
def iterateIncrease (s : Store) (pid : Nat) : Nat → Except String Store
  | 0 => Except.ok s
  | n + 1 =>
    match findProduct s pid with
    | none => Except.error "Product not found."
    | some p =>
      match adjustQuantity p s .increase none with
      | Except.ok (s1, _) => iterateIncrease s1 pid n
      | Except.error e => Except.error e

/-! ## Users, credentials and the pre-save password hook (`models/User.ts`) -/

/-- A stored password field: the raw plaintext just after assignment, or a
bcrypt hash after the pre-save hook ran. -/
inductive StoredPassword where
  | plain (value : String)
  | hashed (salt : Nat) (digest : String)
deriving DecidableEq

/-- Modelled from the spec: the bcrypt library is an external collaborator;
the hash is a salted one-way digest of the rendered input string. -/
def bcryptRender : StoredPassword → String
  | .plain v => v
  | .hashed salt d => "$2b$" ++ toString salt ++ "$" ++ d

/-- Modelled from the spec: `bcrypt.hash(value, salt)` — a salted hash of
the current field value. -/
def bcryptHashWith (salt : Nat) (sp : StoredPassword) : StoredPassword :=
  .hashed salt (bcryptRender sp)

/-- Modelled from the spec: `bcrypt.compare(candidate, storedHash)` — true
exactly when the candidate plaintext re-hashes to the stored digest. -/
def bcryptCompare (candidatePassword : String) (stored : StoredPassword) : Bool :=
  match stored with
  | .hashed _ d => candidatePassword == d
  | .plain _ => false

/-- A `User` document (`userSchema`): unique email plus the password field,
together with the mongoose `isModified('password')` dirty flag. -/
structure UserDoc where
  id : String
  email : String
  password : StoredPassword
  passwordModified : Bool
deriving DecidableEq

/-- `userSchema.methods.comparePasswords(candidatePassword)`. -/
def comparePasswords (user : UserDoc) (candidatePassword : String) : Bool :=
  bcryptCompare candidatePassword user.password

/-- `userSchema.pre('save')` followed by the write: when the password field
is dirty the hook replaces it by its salted hash before persisting (and the
save clears the dirty flag); otherwise the stored value is left untouched. -/
def userPreSaveHook (salt : Nat) (user : UserDoc) : UserDoc :=
  if user.passwordModified then
    { user with password := bcryptHashWith salt user.password, passwordModified := false }
  else
    user

/-- `new User({email, password})`: assigning the password marks it dirty. -/
def newUser (id email plaintext : String) : UserDoc :=
  { id := id, email := email, password := .plain plaintext, passwordModified := true }

/-- An unrelated profile update: overwrite the email, leaving the password
field (and its dirty flag) untouched. -/
def setEmail (user : UserDoc) (newEmail : String) : UserDoc :=
  { user with email := newEmail }

/-! ## Token service and access-control gate
(`utils/authUtils.ts`, `middleware/requireAuth.ts`, auth routes) -/

/-- Application configuration: the two independent signing secrets. -/
structure Config where
  jwtSecret : String
  jwtRefreshSecret : String
deriving DecidableEq

/-- A JS `Error` as observed by the handlers: its `name` and `message`. -/
structure JsError where
  name : String
  message : String
deriving DecidableEq

/-- Modelled from the spec: a signed JWT of the jsonwebtoken library —
its claims object, the secret it was signed with, and whether it is past
its expiry. -/
structure JwtToken where
  claims : List (String × String)
  secret : String
  expired : Bool
deriving DecidableEq

/-- The `AuthPayloadSchema = z.object({userId: z.string()})` payload. -/
structure AuthPayload where
  userId : String
deriving DecidableEq

/-- Modelled from the spec: `jwt.verify(token, secret, cb)` — rejects with a
`JsonWebTokenError` when the signature does not match the secret and with a
`TokenExpiredError` when the token is past expiry, otherwise yields the
decoded claims. -/
def jwtVerify (token : JwtToken) (secret : String) : Except JsError (List (String × String)) :=
  if token.secret ≠ secret then
    Except.error { name := "JsonWebTokenError", message := "invalid signature" }
  else if token.expired then
    Except.error { name := "TokenExpiredError", message := "jwt expired" }
  else
    Except.ok token.claims

/-- Modelled from the spec: `jwt.sign(payload, secret, ...)` — a fresh,
unexpired token carrying the payload, signed with the secret. -/
def jwtSign (payload : AuthPayload) (secret : String) : JwtToken :=
  { claims := [("userId", payload.userId)], secret := secret, expired := false }

/-- `jwtVerifyAsync(token, secret)` from `utils/authUtils.ts`: verify, then
validate the decoded payload with `AuthPayloadSchema.safeParse`, rejecting
with `new Error('Invalid token')` (name `Error`) on a malformed payload. -/
def jwtVerifyAsync (token : JwtToken) (secret : String) : Except JsError AuthPayload :=
  match jwtVerify token secret with
  | Except.error e => Except.error e
  | Except.ok decoded =>
    match decoded.lookup "userId" with
    | some uid => Except.ok { userId := uid }
    | none => Except.error { name := "Error", message := "Invalid token" }

/-- `generateTokens(payload)`: a short-lived access token signed with
`jwtSecret` and a long-lived refresh token signed with `jwtRefreshSecret`. -/
def generateTokens (cfg : Config) (payload : AuthPayload) : JwtToken × JwtToken :=
  (jwtSign payload cfg.jwtSecret, jwtSign payload cfg.jwtRefreshSecret)

/-- `User.findById` over the user collection. -/
def findUser (users : List UserDoc) (uid : String) : Option UserDoc :=
  users.find? (fun u => u.id == uid)

/-- The outcome of the `requireAuth` middleware: an error response
(status, error message) or the resolved user attached to the request. -/
inductive AuthOutcome where
  | err (status : Nat) (message : String)
  | success (user : UserDoc)
deriving DecidableEq

/-- The repeated 401 message of `requireAuth`. -/
def authRequiredMessage : String := "You must be logged in to perform this action."

/-- `requireAuth` from `middleware/requireAuth.ts`: missing header → 401;
token verification failure → 401 only for a `TokenExpiredError`, otherwise
`sendCaughtError` (a 500 with the error's own message); unresolved user →
401; otherwise the user is attached and the chain continues. -/
def requireAuth (cfg : Config) (users : List UserDoc) (authorization : Option JwtToken) :
    AuthOutcome :=
  match authorization with
  | none => .err 401 authRequiredMessage
  | some token =>
    match jwtVerifyAsync token cfg.jwtSecret with
    | Except.error e =>
      if e.name = "TokenExpiredError" then .err 401 authRequiredMessage
      else .err 500 e.message
    | Except.ok payload =>
      match findUser users payload.userId with
      | none => .err 401 authRequiredMessage
      | some user => .success user

/-- The outcome of the `/refreshtoken` route: an error response or the
fresh access/refresh token pair. -/
inductive RefreshOutcome where
  | err (status : Nat) (message : String)
  | tokens (token refreshToken : JwtToken)
deriving DecidableEq

/-- `authRouter.post('/refreshtoken')`: verify the refresh token against
`jwtRefreshSecret`; a falsy (empty) `userId` is rejected as an invalid
payload; an unresolved user yields `No user found.`; otherwise a brand-new
pair is generated from the resolved user's id. -/
def refreshTokenRoute (cfg : Config) (users : List UserDoc) (body : Option JwtToken) :
    RefreshOutcome :=
  match body with
  | none => .err 400 "No refresh token provided"
  | some refreshToken =>
    match jwtVerifyAsync refreshToken cfg.jwtRefreshSecret with
    | Except.error e => .err 500 e.message
    | Except.ok decodedToken =>
      if decodedToken.userId = "" then .err 400 "Invalid token payload"
      else
        match findUser users decodedToken.userId with
        | none => .err 400 "No user found."
        | some user =>
          let pair := generateTokens cfg { userId := user.id }
          .tokens pair.1 pair.2

/-! ## List read routes (`GET /list` and the simplified `GET /lists`) -/

/-- The `ApiResponse` JSON envelope together with the HTTP status:
`sendSuccess` fills `message` and `data`, `sendError` fills `error`. -/
structure ApiResponse (α : Type) where
  status : Nat
  message : Option String
  data : Option α
  error : Option String

/-- `sendSuccess(response, data, message, status)` from `responseUtils.ts`. -/
def sendSuccess {α : Type} (data : α) (message : String) (status : Nat) : ApiResponse α :=
  { status := status, message := some message, data := some data, error := none }

/-- `reorderRoutes.get('/list')` (richer variant): the user's lists; an
empty result is sent as a success with `[]` and the default 200 status. -/
def getListsForUser (s : Store) (userId : Nat) : ApiResponse (List ReorderListDoc) :=
  let reorderLists := s.lists.filter (fun l => l.userId == userId)
  if reorderLists.isEmpty then sendSuccess [] "No lists found" 200
  else sendSuccess reorderLists "Lists successfully found." 200

/-- `reorderRoutes.get('/lists')` (simplified variant): all lists; an empty
result is sent through `sendSuccess` but with `StatusCodes.NOT_FOUND`. -/
def getListsSimple (s : Store) : ApiResponse (List ReorderListDoc) :=
  let reorderLists := s.lists
  if reorderLists.isEmpty then sendSuccess [] "No lists found" 404
  else sendSuccess reorderLists "Lists successfully found." 200

/-! ## Generic lemmas about `find?` and `upsertBy` -/

theorem find?_cons_pos {α : Type} (p : α → Bool) (a : α) (l : List α) (h : p a = true) :
    (a :: l).find? p = some a := by
  simp [List.find?, h]

theorem find?_cons_neg {α : Type} (p : α → Bool) (a : α) (l : List α) (h : p a = false) :
    (a :: l).find? p = l.find? p := by
  simp [List.find?, h]

theorem find?_map_replace {α : Type} (key : α → Nat) (x : α) (l : List α)
    (h : l.any (fun y => key y == key x) = true) :
    (l.map (fun y => if key y == key x then x else y)).find? (fun y => key y == key x) = some x := by
  induction l with
  | nil => simp at h
  | cons a t ih =>
    simp only [List.any_cons, Bool.or_eq_true] at h
    simp only [List.map_cons]
    by_cases hk : (key a == key x) = true
    · rw [if_pos hk]
      exact find?_cons_pos (fun y => key y == key x) x _ (by simp)
    · rw [if_neg hk]
      rw [find?_cons_neg (fun y => key y == key x) a _ (by simpa using hk)]
      exact ih (h.resolve_left hk)

theorem find?_append_singleton {α : Type} (p : α → Bool) (x : α) (l : List α)
    (h : l.find? p = none) (hx : p x = true) :
    (l ++ [x]).find? p = some x := by
  induction l with
  | nil => simpa using find?_cons_pos p x [] hx
  | cons a t ih =>
    by_cases ha : p a = true
    · exfalso
      rw [find?_cons_pos p a t ha] at h
      exact Option.noConfusion h
    · have ha' : p a = false := by simpa using ha
      rw [find?_cons_neg p a t ha'] at h
      rw [List.cons_append, find?_cons_neg p a _ ha']
      exact ih h

theorem find?_upsertBy_self {α : Type} (key : α → Nat) (l : List α) (x : α) :
    (upsertBy key l x).find? (fun y => key y == key x) = some x := by
  unfold upsertBy
  by_cases h : l.any (fun y => key y == key x) = true
  · rw [if_pos h]
    exact find?_map_replace key x l h
  · rw [if_neg h]
    refine find?_append_singleton _ x l ?_ (by simp)
    rw [List.find?_eq_none]
    intro a ha hpa
    exact h (List.any_eq_true.mpr ⟨a, ha, hpa⟩)

theorem mem_upsertBy {α : Type} (key : α → Nat) (l : List α) (x : α) (y : α)
    (h : y ∈ upsertBy key l x) : y ∈ l ∨ y = x := by
  unfold upsertBy at h
  by_cases hc : l.any (fun z => key z == key x) = true
  · rw [if_pos hc] at h
    obtain ⟨z, hz, hfz⟩ := List.mem_map.mp h
    by_cases hk : (key z == key x) = true
    · rw [if_pos hk] at hfz
      exact Or.inr hfz.symm
    · rw [if_neg hk] at hfz
      exact Or.inl (hfz ▸ hz)
  · rw [if_neg hc] at h
    rcases List.mem_append.mp h with h1 | h1
    · exact Or.inl h1
    · exact Or.inr (List.mem_singleton.mp h1)

theorem length_upsertBy_of_any {α : Type} (key : α → Nat) (l : List α) (x : α)
    (h : l.any (fun y => key y == key x) = true) :
    (upsertBy key l x).length = l.length := by
  rw [upsertBy, if_pos h, List.length_map]

theorem findProduct_id (s : Store) (pid : Nat) (p : ReorderProduct)
    (h : findProduct s pid = some p) : p.id = pid := by
  have := List.find?_some h
  simpa using this

theorem findList_id (s : Store) (lid : Nat) (l : ReorderListDoc)
    (h : findList s lid = some l) : l.id = lid := by
  have := List.find?_some h
  simpa using this

theorem findProduct_mem (s : Store) (pid : Nat) (p : ReorderProduct)
    (h : findProduct s pid = some p) : p ∈ s.products :=
  List.mem_of_find?_eq_some h

theorem findProduct_saveProduct_self (s : Store) (p : ReorderProduct) :
    findProduct (saveProduct s p) p.id = some p := by
  unfold findProduct saveProduct
  exact find?_upsertBy_self (fun q => q.id) s.products p

theorem findList_saveList_self (s : Store) (l : ReorderListDoc) :
    findList (saveList s l) l.id = some l := by
  unfold findList saveList
  exact find?_upsertBy_self (fun m => m.id) s.lists l

theorem products_saveList (s : Store) (l : ReorderListDoc) :
    (saveList s l).products = s.products := rfl

theorem lists_saveProduct (s : Store) (p : ReorderProduct) :
    (saveProduct s p).lists = s.lists := rfl

/-- After the cascade delete no product document with the deleted id remains. -/
theorem deleteProductCascade_no_product (s : Store) (pid : Nat) :
    ∀ q ∈ (deleteProductCascade s pid).products, q.id ≠ pid := by
  intro q hq
  unfold deleteProductCascade at hq
  simp only [List.mem_filter] at hq
  simpa using hq.2

/-- After the cascade delete no list's membership collection holds the id. -/
theorem deleteProductCascade_no_ref (s : Store) (pid : Nat) :
    ∀ l ∈ (deleteProductCascade s pid).lists, pid ∉ l.productsToReorder := by
  intro l hl
  unfold deleteProductCascade at hl
  obtain ⟨l0, _, rfl⟩ := List.mem_map.mp hl
  intro hmem
  simp only [List.mem_filter] at hmem
  simpa using hmem.2

/-! ## Sample documents used by the concrete witnesses -/

/-- A sample product with quantity 5. -/
def sampleProduct : ReorderProduct :=
  { id := 11, sku := "A1", name := "Apples", reorderQuantity := 5, listId := 1 }

/-- A sample product with quantity 1. -/
def unitProduct : ReorderProduct :=
  { id := 21, sku := "C3", name := "Carrots", reorderQuantity := 1, listId := 1 }

/-- A sample list referencing both sample products. -/
def sampleList : ReorderListDoc :=
  { id := 1, userId := 7, listName := "Groceries", productsToReorder := [11, 21] }

/-- A sample store holding the sample list and products. -/
def sampleStore : Store := { products := [sampleProduct, unitProduct], lists := [sampleList] }

/-! ## C1: the `decrease` transition -/

/-- C1: for a persisted product with quantity q ≥ 1, `decrease` computes
max(0, q − 1); if that is 0 the product document is removed and its id is
pulled from every list's membership collection and the call returns
`deleted`, otherwise the new quantity is persisted and the call returns
`updated`. -/
theorem decrease_transition_spec (s : Store) (p : ReorderProduct) (qopt : Option ℚ)
    (hpers : findProduct s p.id = some p) (hq : 1 ≤ p.reorderQuantity) :
    ∃ s' r, adjustQuantity p s .decrease qopt = Except.ok (s', r) ∧
      (if max 0 (p.reorderQuantity - 1) = 0 then
        r = .deleted ∧ (∀ q ∈ s'.products, q.id ≠ p.id) ∧
          (∀ l ∈ s'.lists, p.id ∉ l.productsToReorder)
      else
        r = .updated ∧ ∃ p', findProduct s' p.id = some p' ∧
          p'.reorderQuantity = max 0 (p.reorderQuantity - 1)) := by
  by_cases h0 : max 0 (p.reorderQuantity - 1) = 0
  · refine ⟨deleteProductCascade s p.id, .deleted, ?_, ?_⟩
    · simp [adjustQuantity, h0]
    · rw [if_pos h0]
      exact ⟨rfl, deleteProductCascade_no_product s p.id, deleteProductCascade_no_ref s p.id⟩
  · refine ⟨saveProduct s { p with reorderQuantity := max 0 (p.reorderQuantity - 1) },
      .updated, ?_, ?_⟩
    · simp [adjustQuantity, h0]
    · rw [if_neg h0]
      exact ⟨rfl, { p with reorderQuantity := max 0 (p.reorderQuantity - 1) },
        findProduct_saveProduct_self s _, rfl⟩

/-- Witness for C1 at a concrete product of quantity 5 in a concrete store. -/
theorem decrease_transition_spec_witness :
    (1 ≤ sampleProduct.reorderQuantity) ∧
    (∃ s' r, adjustQuantity sampleProduct sampleStore .decrease none = Except.ok (s', r) ∧
      (if max 0 (sampleProduct.reorderQuantity - 1) = 0 then
        r = .deleted ∧ (∀ q ∈ s'.products, q.id ≠ sampleProduct.id) ∧
          (∀ l ∈ s'.lists, sampleProduct.id ∉ l.productsToReorder)
      else
        r = .updated ∧ ∃ p', findProduct s' sampleProduct.id = some p' ∧
          p'.reorderQuantity = max 0 (sampleProduct.reorderQuantity - 1))) :=
  ⟨by norm_num [sampleProduct],
   decrease_transition_spec sampleStore sampleProduct none rfl (by norm_num [sampleProduct])⟩

/-! ## C9: repeated `increase` -/

/-- Helper for C9: iterating the increase adjustment n times succeeds and
adds exactly n to the persisted quantity. -/
theorem iterateIncrease_adds (n : Nat) : ∀ (s : Store) (p : ReorderProduct) (pid : Nat),
    findProduct s pid = some p →
    ∃ s' p', iterateIncrease s pid n = Except.ok s' ∧ findProduct s' pid = some p' ∧
      p'.reorderQuantity = p.reorderQuantity + n := by
  induction n with
  | zero =>
    intro s p pid h
    exact ⟨s, p, rfl, h, by simp⟩
  | succ m ih =>
    intro s p pid h
    have hid : p.id = pid := findProduct_id s pid p h
    have hstep : findProduct (saveProduct s { p with reorderQuantity := p.reorderQuantity + 1 })
        pid = some { p with reorderQuantity := p.reorderQuantity + 1 } := by
      rw [← hid]
      exact findProduct_saveProduct_self s _
    obtain ⟨s', p', h1, h2, h3⟩ := ih _ _ pid hstep
    refine ⟨s', p', ?_, h2, ?_⟩
    · have hadj : adjustQuantity p s .increase none =
          Except.ok (saveProduct s { p with reorderQuantity := p.reorderQuantity + 1 },
            .updated) := rfl
      simp only [iterateIncrease, h, hadj]
      exact h1
    · rw [h3]
      push_cast
      ring

/-- C9: every `increase` call returns `updated` and adds exactly 1, and n
consecutive increases (each reloading the persisted product) leave the
quantity at exactly initial + n — no saturation, no wrap-around. -/
theorem increase_monotone_spec (s : Store) (pid : Nat) (p : ReorderProduct) (n : Nat)
    (h : findProduct s pid = some p) :
    (∀ (q : ReorderProduct) (t : Store) (qo : Option ℚ),
        adjustQuantity q t .increase qo =
          Except.ok (saveProduct t { q with reorderQuantity := q.reorderQuantity + 1 },
            .updated)) ∧
    ∃ s' p', iterateIncrease s pid n = Except.ok s' ∧ findProduct s' pid = some p' ∧
      p'.reorderQuantity = p.reorderQuantity + n :=
  ⟨fun _ _ _ => rfl, iterateIncrease_adds n s p pid h⟩

/-- Witness for C9: three increases on the sample product (quantity 5). -/
theorem increase_monotone_spec_witness :
    (∀ (q : ReorderProduct) (t : Store) (qo : Option ℚ),
        adjustQuantity q t .increase qo =
          Except.ok (saveProduct t { q with reorderQuantity := q.reorderQuantity + 1 },
            .updated)) ∧
    ∃ s' p', iterateIncrease sampleStore 11 3 = Except.ok s' ∧ findProduct s' 11 = some p' ∧
      p'.reorderQuantity = sampleProduct.reorderQuantity + 3 :=
  increase_monotone_spec sampleStore 11 sampleProduct 3 rfl

/-! ## C4: the `set` transition -/

/-- C4: `set` with a non-negative integer persists it (`updated`) or, at 0,
cascade-deletes the product (`deleted`); a missing, non-integer or negative
quantity is rejected — the schema turns it into a 400 before the product is
touched, and the model method itself throws `Invalid quantity for set
operation` — and the store is left unchanged. -/
theorem set_transition_spec (s : Store) (p : ReorderProduct) (qopt : Option ℚ)
    (pid : Nat) (body : AdjustmentBody) :
    (qopt = some 0 →
       adjustQuantity p s .set qopt = Except.ok (deleteProductCascade s p.id, .deleted) ∧
       (∀ q ∈ (deleteProductCascade s p.id).products, q.id ≠ p.id) ∧
       (∀ l ∈ (deleteProductCascade s p.id).lists, p.id ∉ l.productsToReorder)) ∧
    (∀ v, qopt = some v → jsIsInteger v = true → 0 ≤ v → v ≠ 0 →
       adjustQuantity p s .set qopt =
         Except.ok (saveProduct s { p with reorderQuantity := v }, .updated) ∧
       findProduct (saveProduct s { p with reorderQuantity := v }) p.id =
         some { p with reorderQuantity := v }) ∧
    ((qopt = none ∨ ∃ v, qopt = some v ∧ (jsIsInteger v = false ∨ v < 0)) →
       adjustQuantity p s .set qopt = Except.error "Invalid quantity for set operation") ∧
    (body.type = some "set" →
       (body.quantity = none ∨ ∃ v, body.quantity = some v ∧ (jsIsInteger v = false ∨ v < 0)) →
       adjustProductRoute s pid body = (.badRequest "Invalid request data.", s)) := by
  refine ⟨?_, ?_, ?_, ?_⟩
  · rintro rfl
    refine ⟨?_, deleteProductCascade_no_product s p.id, deleteProductCascade_no_ref s p.id⟩
    norm_num [adjustQuantity, jsIsInteger]
  · rintro v rfl hint hnn hne
    constructor
    · simp [adjustQuantity, hint, hnn, hne]
    · exact findProduct_saveProduct_self s _
  · rintro (rfl | ⟨v, rfl, hbad⟩)
    · rfl
    · have hcond : ¬ (jsIsInteger v = true ∧ 0 ≤ v) := by
        rcases hbad with hb | hb
        · intro hc
          rw [hc.1] at hb
          exact Bool.noConfusion hb
        · intro hc
          exact absurd hc.2 (not_le.mpr hb)
      simp [adjustQuantity, hcond]
  · intro htype hbad
    have hparse : quantityAdjustmentSchemaParse body = none := by
      rcases hbad with hq2 | ⟨v, hq2, hb⟩
      · simp [quantityAdjustmentSchemaParse, htype, hq2, parseAdjustmentType]
      · have hcond : ¬ (jsIsInteger v = true ∧ 0 ≤ v) := by
          rcases hb with hb | hb
          · intro hc
            rw [hc.1] at hb
            exact Bool.noConfusion hb
          · intro hc
            exact absurd hc.2 (not_le.mpr hb)
        simp [quantityAdjustmentSchemaParse, htype, hq2, parseAdjustmentType, hcond]
    simp [adjustProductRoute, hparse]

/-- Witness for C4: `set 0` deletes, `set 4` updates, `set (3/2)` and
`set (−1)` are rejected, all at the sample store. -/
theorem set_transition_spec_witness :
    (adjustQuantity sampleProduct sampleStore .set (some 0) =
       Except.ok (deleteProductCascade sampleStore sampleProduct.id, .deleted)) ∧
    (adjustQuantity sampleProduct sampleStore .set (some 4) =
       Except.ok (saveProduct sampleStore { sampleProduct with reorderQuantity := 4 },
         .updated)) ∧
    (adjustQuantity sampleProduct sampleStore .set (some (mkRat 3 2)) =
       Except.error "Invalid quantity for set operation") ∧
    (adjustQuantity sampleProduct sampleStore .set (some (-1)) =
       Except.error "Invalid quantity for set operation") ∧
    (adjustQuantity sampleProduct sampleStore .set none =
       Except.error "Invalid quantity for set operation") ∧
    (adjustProductRoute sampleStore 11 { type := some "set", quantity := none } =
       (.badRequest "Invalid request data.", sampleStore)) := by
  have h := set_transition_spec sampleStore sampleProduct (some 0) 11
    { type := some "set", quantity := none }
  have h4 := set_transition_spec sampleStore sampleProduct (some 4) 11
    { type := some "set", quantity := none }
  have h32 := set_transition_spec sampleStore sampleProduct (some (mkRat 3 2)) 11
    { type := some "set", quantity := none }
  have hm1 := set_transition_spec sampleStore sampleProduct (some (-1)) 11
    { type := some "set", quantity := none }
  have hn := set_transition_spec sampleStore sampleProduct none 11
    { type := some "set", quantity := none }
  refine ⟨(h.1 rfl).1, (h4.2.1 4 rfl (by decide) (by norm_num) (by norm_num)).1,
    ?_, ?_, ?_, ?_⟩
  · exact h32.2.2.1 (Or.inr ⟨mkRat 3 2, rfl, Or.inl (by decide)⟩)
  · exact hm1.2.2.1 (Or.inr ⟨-1, rfl, Or.inr (by norm_num)⟩)
  · exact hn.2.2.1 (Or.inl rfl)
  · exact hn.2.2.2 rfl (Or.inl rfl)

/-! ## C2: the positive-integer quantity invariant -/

/-- The spec's product invariant: every persisted product has a positive
integer quantity. -/
def productInvariant (s : Store) : Prop :=
  ∀ p ∈ s.products, jsIsInteger p.reorderQuantity = true ∧ 1 ≤ p.reorderQuantity

theorem jsIsInteger_iff (q : ℚ) : jsIsInteger q = true ↔ (q.num : ℚ) = q := by
  simp [jsIsInteger, Rat.den_eq_one_iff]

theorem jsIsInteger_add_one (q : ℚ) (h : jsIsInteger q = true) :
    jsIsInteger (q + 1) = true := by
  obtain hq := (jsIsInteger_iff q).mp h
  have hcast : q + 1 = ((q.num + 1 : ℤ) : ℚ) := by
    push_cast
    rw [hq]
  rw [hcast]
  simp only [jsIsInteger, Rat.den_intCast, beq_self_eq_true]

theorem jsIsInteger_sub_one (q : ℚ) (h : jsIsInteger q = true) :
    jsIsInteger (q - 1) = true := by
  obtain hq := (jsIsInteger_iff q).mp h
  have hcast : q - 1 = ((q.num - 1 : ℤ) : ℚ) := by
    push_cast
    rw [hq]
  rw [hcast]
  simp only [jsIsInteger, Rat.den_intCast, beq_self_eq_true]

theorem jsIsInteger_pos_ge_one (q : ℚ) (h : jsIsInteger q = true) (hpos : 0 < q) :
    1 ≤ q := by
  obtain hq := (jsIsInteger_iff q).mp h
  have h1 : 0 < q.num := by
    rw [← hq] at hpos
    exact_mod_cast hpos
  have h2 : 1 ≤ q.num := by omega
  calc (1 : ℚ) = ((1 : ℤ) : ℚ) := by norm_num
    _ ≤ (q.num : ℚ) := by exact_mod_cast h2
    _ = q := hq

theorem productInvariant_deleteCascade (s : Store) (pid : Nat)
    (hinv : productInvariant s) : productInvariant (deleteProductCascade s pid) := by
  intro q hq
  exact hinv q (List.mem_filter.mp hq).1

theorem productInvariant_saveProduct (s : Store) (x : ReorderProduct)
    (hinv : productInvariant s)
    (hx : jsIsInteger x.reorderQuantity = true ∧ 1 ≤ x.reorderQuantity) :
    productInvariant (saveProduct s x) := by
  intro q hq
  simp only [saveProduct] at hq
  rcases mem_upsertBy (fun y => y.id) s.products x q hq with hmem | rfl
  · exact hinv q hmem
  · exact hx

/-- C2 (amended): the quantity-adjustment state machine preserves the
positive-integer invariant — every successful `adjustQuantity` on a store of
positive-integer-quantity products yields such a store — but the add path
performs no such check (see the counterexample: the add schema accepts any
number, so a product with quantity 0 can be created and persisted). -/
theorem adjustQuantity_preserves_invariant (s : Store) (p : ReorderProduct)
    (ty : QuantityAdjustmentType) (qopt : Option ℚ) (s' : Store) (r : AdjustResult)
    (hinv : productInvariant s)
    (hpq : jsIsInteger p.reorderQuantity = true ∧ 1 ≤ p.reorderQuantity)
    (hok : adjustQuantity p s ty qopt = Except.ok (s', r)) :
    productInvariant s' := by
  cases ty with
  | increase =>
    simp only [adjustQuantity, Except.ok.injEq, Prod.mk.injEq] at hok
    obtain ⟨rfl, -⟩ := hok
    refine productInvariant_saveProduct s _ hinv ⟨jsIsInteger_add_one _ hpq.1, ?_⟩
    have := hpq.2
    simp only
    linarith
  | decrease =>
    simp only [adjustQuantity] at hok
    split at hok
    · rename_i h0
      simp only [Except.ok.injEq, Prod.mk.injEq] at hok
      obtain ⟨rfl, -⟩ := hok
      exact productInvariant_deleteCascade s p.id hinv
    · rename_i h0
      simp only [Except.ok.injEq, Prod.mk.injEq] at hok
      obtain ⟨rfl, -⟩ := hok
      have hlt : 0 < p.reorderQuantity - 1 := by
        by_contra hle
        push_neg at hle
        exact h0 (max_eq_left hle)
      have hmax : max 0 (p.reorderQuantity - 1) = p.reorderQuantity - 1 :=
        max_eq_right (le_of_lt hlt)
      refine productInvariant_saveProduct s _ hinv ⟨?_, ?_⟩
      · simp only [hmax]
        exact jsIsInteger_sub_one _ hpq.1
      · simp only [hmax]
        exact jsIsInteger_pos_ge_one _ (jsIsInteger_sub_one _ hpq.1) hlt
  | set =>
    cases qopt with
    | none => exact absurd hok (by simp [adjustQuantity])
    | some v =>
      simp only [adjustQuantity] at hok
      split at hok
      · rename_i hvalid
        split at hok
        · rename_i hv0
          simp only [Except.ok.injEq, Prod.mk.injEq] at hok
          obtain ⟨rfl, -⟩ := hok
          exact productInvariant_deleteCascade s p.id hinv
        · rename_i hv0
          simp only [Except.ok.injEq, Prod.mk.injEq] at hok
          obtain ⟨rfl, -⟩ := hok
          refine productInvariant_saveProduct s _ hinv ⟨hvalid.1, ?_⟩
          exact jsIsInteger_pos_ge_one v hvalid.1 (lt_of_le_of_ne hvalid.2 (Ne.symm hv0))
      · exact absurd hok (by simp)

/-- Witness for C2 (amended): one `increase` on the sample store keeps the
invariant. -/
theorem adjustQuantity_preserves_invariant_witness :
    productInvariant (saveProduct sampleStore
      { sampleProduct with reorderQuantity := sampleProduct.reorderQuantity + 1 }) := by
  have hinv : productInvariant sampleStore := by
    intro q hq
    simp only [sampleStore, List.mem_cons, List.not_mem_nil, or_false] at hq
    rcases hq with rfl | rfl
    · exact ⟨by decide, by norm_num [sampleProduct]⟩
    · exact ⟨by decide, by norm_num [unitProduct]⟩
  exact adjustQuantity_preserves_invariant sampleStore sampleProduct .increase none _
    .updated hinv ⟨by decide, by norm_num [sampleProduct]⟩ rfl

/-- The add-product request body that exhibits the C2 violation. -/
def zeroQuantityBody : AddProductBody :=
  { sku := some "B2", name := some "Bananas", quantity := some 0, listId := some "1" }

/-- A store with one empty list and no products. -/
def freshListStore : Store :=
  { products := [],
    lists := [{ id := 1, userId := 7, listName := "Fresh", productsToReorder := [] }] }

/-- The product document persisted with quantity 0. -/
def zeroQuantityProduct : ReorderProduct :=
  { id := 12, sku := "B2", name := "Bananas", reorderQuantity := 0, listId := 1 }

/-- The store produced by adding "B2" with quantity 0 to the empty list. -/
def zeroQuantityStore : Store :=
  { products := [zeroQuantityProduct],
    lists := [{ id := 1, userId := 7, listName := "Fresh", productsToReorder := [12] }] }

/-- Counterexample to C2: the add schema accepts quantity 0 and the add path
persists a product whose quantity is 0, violating the positive-integer
invariant. -/
theorem addProduct_zero_quantity_counterexample :
    addProductSchemaParses zeroQuantityBody = true ∧
    addOrBumpProduct freshListStore 1 "B2" "Bananas" 0 12 = Except.ok zeroQuantityStore ∧
    ¬ productInvariant zeroQuantityStore := by
  refine ⟨rfl, rfl, ?_⟩
  intro h
  have hmem : zeroQuantityProduct ∈ zeroQuantityStore.products := by
    simp [zeroQuantityStore]
  have h2 := (h _ hmem).2
  norm_num [zeroQuantityProduct] at h2

/-! ## C3: add-or-bump on a list -/

theorem length_upsertBy_of_any_eq_false {α : Type} (key : α → Nat) (l : List α) (x : α)
    (h : l.any (fun y => key y == key x) = false) :
    (upsertBy key l x).length = l.length + 1 := by
  rw [upsertBy, if_neg (by simp [h])]
  simp

/-- C3: adding to a list whose populated members already hold the exact SKU
creates no new entry — the product count is unchanged, the matched product
gets exactly one `increase`, and the supplied name/quantity (and fresh id)
are discarded: the outcome is identical for every substitute value.  When
the SKU is absent, a new product carrying the supplied quantity is created
and its id is appended to the list's membership collection. -/
theorem addOrBump_spec (s : Store) (lid : Nat) (l : ReorderListDoc) (sku name : String)
    (qty : ℚ) (newId : Nat)
    (hl : findList s lid = some l)
    (hfresh : s.products.find? (fun q => q.id == newId) = none) :
    (∀ p, (l.productsToReorder.filterMap (fun mid => findProduct s mid)).find?
        (fun q => q.sku == sku) = some p →
      ∃ s', addOrBumpProduct s lid sku name qty newId = Except.ok s' ∧
        s'.products.length = s.products.length ∧
        findProduct s' p.id = some { p with reorderQuantity := p.reorderQuantity + 1 } ∧
        (∀ (name' : String) (qty' : ℚ) (newId' : Nat),
          addOrBumpProduct s lid sku name' qty' newId' = Except.ok s')) ∧
    ((l.productsToReorder.filterMap (fun mid => findProduct s mid)).find?
        (fun q => q.sku == sku) = none →
      ∃ s', addOrBumpProduct s lid sku name qty newId = Except.ok s' ∧
        s'.products.length = s.products.length + 1 ∧
        findProduct s' newId =
          some { id := newId, sku := sku, name := name, reorderQuantity := qty,
                 listId := l.id } ∧
        findList s' l.id =
          some { l with productsToReorder := l.productsToReorder ++ [newId] }) := by
  constructor
  · intro p hp
    have hpmem : p ∈ s.products := by
      obtain ⟨mid, hmid, hfind⟩ := List.mem_filterMap.mp (List.mem_of_find?_eq_some hp)
      exact findProduct_mem s mid p hfind
    have hany : s.products.any (fun y => y.id == p.id) = true :=
      List.any_eq_true.mpr ⟨p, hpmem, by simp⟩
    have hadj : adjustQuantity p s .increase none =
        Except.ok (saveProduct s { p with reorderQuantity := p.reorderQuantity + 1 },
          AdjustResult.updated) := rfl
    refine ⟨saveList (saveProduct s { p with reorderQuantity := p.reorderQuantity + 1 }) l,
      ?_, ?_, ?_, ?_⟩
    · simp only [addOrBumpProduct, hl, hp, hadj]
    · rw [products_saveList]
      exact length_upsertBy_of_any (fun y => y.id) s.products
        { p with reorderQuantity := p.reorderQuantity + 1 } hany
    · exact findProduct_saveProduct_self s { p with reorderQuantity := p.reorderQuantity + 1 }
    · intro name' qty' newId'
      simp only [addOrBumpProduct, hl, hp, hadj]
  · intro hnone
    have hany0 : s.products.any (fun y => y.id == newId) = false := by
      rw [List.any_eq_false]
      intro x hx
      have := List.find?_eq_none.mp hfresh x hx
      simpa using this
    refine ⟨saveList (saveList (saveProduct s
        { id := newId, sku := sku, name := name, reorderQuantity := qty, listId := l.id })
        { l with productsToReorder := l.productsToReorder ++ [newId] })
        { l with productsToReorder := l.productsToReorder ++ [newId] }, ?_, ?_, ?_, ?_⟩
    · simp only [addOrBumpProduct, hl, hnone, addProduct]
    · exact length_upsertBy_of_any_eq_false (fun y => y.id) s.products
        { id := newId, sku := sku, name := name, reorderQuantity := qty, listId := l.id } hany0
    · exact findProduct_saveProduct_self s
        { id := newId, sku := sku, name := name, reorderQuantity := qty, listId := l.id }
    · exact findList_saveList_self (saveList (saveProduct s
        { id := newId, sku := sku, name := name, reorderQuantity := qty, listId := l.id })
        { l with productsToReorder := l.productsToReorder ++ [newId] })
        { l with productsToReorder := l.productsToReorder ++ [newId] }

/-- Witness for C3: bumping the existing SKU "A1" (requested quantity 99 is
discarded) in the sample store. -/
theorem addOrBump_spec_witness :
    ∃ s', addOrBumpProduct sampleStore 1 "A1" "whatever" 99 31 = Except.ok s' ∧
      s'.products.length = sampleStore.products.length ∧
      findProduct s' sampleProduct.id =
        some { sampleProduct with reorderQuantity := sampleProduct.reorderQuantity + 1 } ∧
      (∀ (name' : String) (qty' : ℚ) (newId' : Nat),
        addOrBumpProduct sampleStore 1 "A1" name' qty' newId' = Except.ok s') :=
  (addOrBump_spec sampleStore 1 sampleList "A1" "whatever" 99 31 rfl rfl).1
    sampleProduct rfl

/-! ## C10: the direct delete-product endpoint leaves dangling references -/

/-- C10: the delete endpoint removes only the product document: every list
is left exactly as it was, so any list that referenced the deleted id still
references it (a dangling reference), while no product with that id
survives. -/
theorem deleteProductRoute_spec (s : Store) (pid : Nat) (p : ReorderProduct)
    (h : findProduct s pid = some p) :
    ∃ s', deleteProductRoute s pid = Except.ok s' ∧
      s'.lists = s.lists ∧
      (∀ q ∈ s'.products, q.id ≠ pid) ∧
      (∀ q ∈ s.products, q.id ≠ pid → q ∈ s'.products) ∧
      (∀ l ∈ s.lists, pid ∈ l.productsToReorder →
        l ∈ s'.lists ∧ pid ∈ l.productsToReorder) := by
  have hid : p.id = pid := findProduct_id s pid p h
  refine ⟨{ s with products := s.products.filter (fun q => !(q.id == p.id)) },
    ?_, rfl, ?_, ?_, ?_⟩
  · simp only [deleteProductRoute, h]
  · intro q hq
    have := (List.mem_filter.mp hq).2
    rw [hid] at this
    simpa using this
  · intro q hq hne
    refine List.mem_filter.mpr ⟨hq, ?_⟩
    rw [hid]
    simpa using hne
  · intro l hl hmem
    exact ⟨hl, hmem⟩

/-- Witness for C10: deleting product 11 leaves the sample list still
referencing id 11. -/
theorem deleteProductRoute_spec_witness :
    ∃ s', deleteProductRoute sampleStore 11 = Except.ok s' ∧
      s'.lists = sampleStore.lists ∧
      (∀ q ∈ s'.products, q.id ≠ 11) ∧
      (∀ q ∈ sampleStore.products, q.id ≠ 11 → q ∈ s'.products) ∧
      (∀ l ∈ sampleStore.lists, 11 ∈ l.productsToReorder →
        l ∈ s'.lists ∧ 11 ∈ l.productsToReorder) :=
  deleteProductRoute_spec sampleStore 11 sampleProduct rfl

/-! ## C5: the access-control gate -/

/-- A demo configuration with two distinct secrets. -/
def demoConfig : Config := { jwtSecret := "access-secret", jwtRefreshSecret := "refresh-secret" }

/-- A demo user whose password hash is already persisted. -/
def demoUser : UserDoc :=
  { id := "u1", email := "ada@example.com", password := .hashed 1 "pw", passwordModified := false }

/-- A valid access token for the demo user. -/
def goodToken : JwtToken := jwtSign { userId := "u1" } demoConfig.jwtSecret

/-- A token signed with the wrong secret (an invalid signature). -/
def badToken : JwtToken :=
  { claims := [("userId", "u1")], secret := "other-secret", expired := false }

/-- C5 (amended): the gate answers 401 exactly on a missing header, an
expired token, or an unresolved user; but a token whose verification fails
for any *other* reason (invalid signature, malformed payload) is routed
through `sendCaughtError` and produces a 500 with the error's message, not
the 401 Unauthenticated response; on success the resolved user is attached. -/
theorem requireAuth_spec (cfg : Config) (users : List UserDoc) (auth : Option JwtToken) :
    (auth = none → requireAuth cfg users auth = .err 401 authRequiredMessage) ∧
    (∀ t e, auth = some t → jwtVerifyAsync t cfg.jwtSecret = Except.error e →
      (e.name = "TokenExpiredError" →
        requireAuth cfg users auth = .err 401 authRequiredMessage) ∧
      (e.name ≠ "TokenExpiredError" →
        requireAuth cfg users auth = .err 500 e.message)) ∧
    (∀ t pl, auth = some t → jwtVerifyAsync t cfg.jwtSecret = Except.ok pl →
      (findUser users pl.userId = none →
        requireAuth cfg users auth = .err 401 authRequiredMessage) ∧
      (∀ u, findUser users pl.userId = some u →
        requireAuth cfg users auth = .success u)) := by
  refine ⟨?_, ?_, ?_⟩
  · rintro rfl
    rfl
  · rintro t e rfl hverr
    constructor
    · intro hname
      simp [requireAuth, hverr, hname]
    · intro hname
      simp [requireAuth, hverr, hname]
  · rintro t pl rfl hvok
    constructor
    · intro hfind
      simp [requireAuth, hvok, hfind]
    · intro u hfind
      simp [requireAuth, hvok, hfind]

/-- Counterexample to C5: a token with an invalid signature (not expired) is
answered with a 500 caught-error response, not the 401 Unauthenticated. -/
theorem requireAuth_invalid_token_counterexample :
    jwtVerifyAsync badToken demoConfig.jwtSecret =
      Except.error { name := "JsonWebTokenError", message := "invalid signature" } ∧
    requireAuth demoConfig [demoUser] (some badToken) = .err 500 "invalid signature" ∧
    ((500 : Nat) ≠ 401) :=
  ⟨rfl, rfl, by decide⟩

/-- Witness for C5 (amended): missing header → 401; valid token for the demo
user → the user is attached. -/
theorem requireAuth_spec_witness :
    requireAuth demoConfig [] none = .err 401 authRequiredMessage ∧
    requireAuth demoConfig [demoUser] (some goodToken) = .success demoUser := by
  refine ⟨(requireAuth_spec demoConfig [] none).1 rfl, ?_⟩
  exact ((requireAuth_spec demoConfig [demoUser] (some goodToken)).2.2 goodToken
    { userId := "u1" } rfl rfl).2 demoUser rfl

/-! ## C7: the refresh-token route -/

/-- C7 (amended): a refresh token that verifies successfully with a
non-empty userId either fails with `No user found.` when the user no longer
resolves, or yields a brand-new access+refresh pair whose encoded userId
equals the original token's userId. -/
theorem refreshToken_spec (cfg : Config) (users : List UserDoc) (rt : JwtToken) (uid : String)
    (hv : jwtVerifyAsync rt cfg.jwtRefreshSecret = Except.ok { userId := uid })
    (hne : uid ≠ "") :
    (findUser users uid = none →
      refreshTokenRoute cfg users (some rt) = .err 400 "No user found.") ∧
    (∀ u, findUser users uid = some u →
      refreshTokenRoute cfg users (some rt) =
        .tokens (jwtSign { userId := u.id } cfg.jwtSecret)
          (jwtSign { userId := u.id } cfg.jwtRefreshSecret) ∧
      u.id = uid ∧
      (jwtSign { userId := u.id } cfg.jwtSecret).claims.lookup "userId" = some uid ∧
      (jwtSign { userId := u.id } cfg.jwtRefreshSecret).claims.lookup "userId" = some uid) := by
  constructor
  · intro hfind
    simp [refreshTokenRoute, hv, hne, hfind, generateTokens]
  · intro u hfind
    have huid : u.id = uid := by simpa using List.find?_some hfind
    refine ⟨?_, huid, ?_, ?_⟩
    · simp [refreshTokenRoute, hv, hne, hfind, generateTokens]
    · simp [jwtSign, List.lookup, huid]
    · simp [jwtSign, List.lookup, huid]

/-- A refresh token whose payload carries the empty-string userId. -/
def emptyUserToken : JwtToken := jwtSign { userId := "" } demoConfig.jwtRefreshSecret

/-- Counterexample to C7: a successfully verifying refresh token with
`userId = ""` resolves to no user, yet the route answers `Invalid token
payload` instead of the `No user found.` (UserNotFound) failure the claim
requires. -/
theorem refreshToken_empty_userId_counterexample :
    jwtVerifyAsync emptyUserToken demoConfig.jwtRefreshSecret =
      Except.ok { userId := "" } ∧
    findUser [demoUser] "" = none ∧
    refreshTokenRoute demoConfig [demoUser] (some emptyUserToken) =
      .err 400 "Invalid token payload" ∧
    (RefreshOutcome.err 400 "Invalid token payload" ≠
      RefreshOutcome.err 400 "No user found.") :=
  ⟨rfl, rfl, rfl, by decide⟩

/-- A valid refresh token for the demo user. -/
def refreshDemoToken : JwtToken := jwtSign { userId := "u1" } demoConfig.jwtRefreshSecret

/-- Witness for C7 (amended): refreshing with the demo user's token yields a
fresh pair bound to the same userId. -/
theorem refreshToken_spec_witness :
    refreshTokenRoute demoConfig [demoUser] (some refreshDemoToken) =
      .tokens (jwtSign { userId := demoUser.id } demoConfig.jwtSecret)
        (jwtSign { userId := demoUser.id } demoConfig.jwtRefreshSecret) ∧
    demoUser.id = "u1" :=
  have h := (refreshToken_spec demoConfig [demoUser] refreshDemoToken "u1" rfl
    (by decide)).2 demoUser rfl
  ⟨h.1, h.2.1⟩

/-! ## C6: list-all on an empty result -/

/-- The empty store. -/
def emptyStore : Store := { products := [], lists := [] }

/-- C6 (amended): list-all sends a success-shaped body with an empty
collection when no lists exist; the per-user variant uses status 200, but
the simplified variant marks the same empty success body with status 404. -/
theorem listAll_empty_spec (s : Store) (userId : Nat)
    (h : s.lists.filter (fun l => l.userId == userId) = []) :
    (getListsForUser s userId).status = 200 ∧
    (getListsForUser s userId).error = none ∧
    (getListsForUser s userId).data = some [] ∧
    (s.lists = [] →
      (getListsSimple s).error = none ∧ (getListsSimple s).data = some [] ∧
      (getListsSimple s).status = 404) := by
  have hresp : getListsForUser s userId = sendSuccess [] "No lists found" 200 := by
    simp [getListsForUser, h]
  refine ⟨by rw [hresp]; rfl, by rw [hresp]; rfl, by rw [hresp]; rfl, ?_⟩
  intro h2
  have hresp2 : getListsSimple s = sendSuccess [] "No lists found" 404 := by
    simp [getListsSimple, h2]
  exact ⟨by rw [hresp2]; rfl, by rw [hresp2]; rfl, by rw [hresp2]; rfl⟩

/-- Counterexample to C6: with no lists, the simplified variant responds
with HTTP status 404 (an error-status response), not 200, even though the
body is the success envelope with an empty collection. -/
theorem getListsSimple_empty_counterexample :
    (getListsSimple emptyStore).status = 404 ∧
    ((404 : Nat) ≠ 200) ∧
    (getListsSimple emptyStore).error = none ∧
    (getListsSimple emptyStore).data = some [] :=
  ⟨rfl, by decide, rfl, rfl⟩

/-- Witness for C6 (amended) at the empty store. -/
theorem listAll_empty_spec_witness :
    (getListsForUser emptyStore 7).status = 200 ∧
    (getListsForUser emptyStore 7).error = none ∧
    (getListsForUser emptyStore 7).data = some [] ∧
    (emptyStore.lists = [] →
      (getListsSimple emptyStore).error = none ∧
      (getListsSimple emptyStore).data = some [] ∧
      (getListsSimple emptyStore).status = 404) :=
  listAll_empty_spec emptyStore 7 rfl

/-! ## C8: the pre-save password hook -/

/-- C8: the pre-save hook recomputes the hash exactly when the password
field is dirty; a save with a clean password field leaves the stored hash
byte-for-byte unchanged, so sign-in with the original password succeeds both
before and after an unrelated email update. -/
theorem password_hook_spec (id email email2 pw : String) (salt salt2 : Nat) :
    comparePasswords (userPreSaveHook salt (newUser id email pw)) pw = true ∧
    (userPreSaveHook salt2 (setEmail (userPreSaveHook salt (newUser id email pw)) email2)).password
      = (userPreSaveHook salt (newUser id email pw)).password ∧
    comparePasswords
      (userPreSaveHook salt2 (setEmail (userPreSaveHook salt (newUser id email pw)) email2)) pw
      = true ∧
    (∀ u : UserDoc, u.passwordModified = false →
      (userPreSaveHook salt2 u).password = u.password) ∧
    (∀ u : UserDoc, u.passwordModified = true →
      (userPreSaveHook salt2 u).password = bcryptHashWith salt2 u.password) := by
  refine ⟨?_, ?_, ?_, ?_, ?_⟩
  · simp [comparePasswords, userPreSaveHook, newUser, bcryptCompare, bcryptHashWith,
      bcryptRender]
  · simp [userPreSaveHook, newUser, setEmail]
  · simp [comparePasswords, userPreSaveHook, newUser, setEmail, bcryptCompare,
      bcryptHashWith, bcryptRender]
  · intro u hu
    simp [userPreSaveHook, hu]
  · intro u hu
    simp [userPreSaveHook, hu]

/-- Witness for C8: the demo user's clean save leaves the hash unchanged and
the original password still signs in. -/
theorem password_hook_spec_witness :
    comparePasswords (userPreSaveHook 1 (newUser "u1" "ada@example.com" "pw")) "pw" = true ∧
    (userPreSaveHook 2 demoUser).password = demoUser.password := by
  refine ⟨(password_hook_spec "u1" "ada@example.com" "c@d" "pw" 1 2).1, ?_⟩
  exact (password_hook_spec "u1" "ada@example.com" "c@d" "pw" 1 2).2.2.2.1 demoUser rfl
